import Mathlib

/-!
Verification development for the Azure / ACI autoscaler bootstrap code
(`python/ray/autoscaler/azure/config.py` and
`python/ray/autoscaler/aci/config.py`).

The Python code is embedded shallowly:
* Python dicts with value semantics are association lists (`Obj` below);
  the one claim about aliasing/mutation of the module-level default node
  configuration uses an explicit heap of dict objects instead.
* Side-effecting cloud API calls are modelled by an environment describing
  each call's outcome plus an explicit trace of the calls made.
* `KeyError` and `AssertionError` are modelled with `Except String`.
-/

/-- Python `None` / dict / list / scalar values, with value semantics. -/
inductive JVal where
  | s : String → JVal
  | b : Bool → JVal
  | i : Int → JVal
  | none : JVal
  | arr : List JVal → JVal
  | obj : List (String × JVal) → JVal

/-- A Python dict with value semantics: an association list (keys unique
by construction of the operations below; lookup takes the first match). -/
abbrev Obj := List (String × JVal)

/-- Dict lookup, `d.get(k)` / `k in d`. Generic in the value type so the
same operations serve the heap model. -/
def dget? {α : Type} : List (String × α) → String → Option α
  | [], _ => Option.none
  | (k0, v0) :: rest, k => if k0 = k then some v0 else dget? rest k

/-- Dict store, `d[k] = v`: replaces the binding if the key is present,
appends it otherwise (Python dicts keep one binding per key). -/
def dset {α : Type} : List (String × α) → String → α → List (String × α)
  | [], k, v => [(k, v)]
  | (k0, v0) :: rest, k, v =>
      if k0 = k then (k, v) :: rest else (k0, v0) :: dset rest k v

/-- Python `d.update(other)`: store every binding of `other` into `d`. -/
def dupdate {α : Type} (d other : List (String × α)) : List (String × α) :=
  other.foldl (fun acc p => dset acc p.1 p.2) d

/-- Python `k in d`. -/
def dhas {α : Type} (d : List (String × α)) (k : String) : Bool :=
  (dget? d k).isSome

/-- Python `d.get(k, default)`. -/
def dgetD (d : Obj) (k : String) (dflt : JVal) : JVal :=
  (dget? d k).getD dflt

/-- Python `d[k]`: raises `KeyError` when the key is absent. -/
def getItem (d : Obj) (k : String) : Except String JVal :=
  match dget? d k with
  | some v => Except.ok v
  | Option.none => Except.error ("KeyError: " ++ k)

/-- View a value as a dict; the embedded code only applies this to values
that are dicts (anything else would be a `TypeError` in Python, which no
claim exercises). -/
def asObj : JVal → Obj
  | .obj d => d
  | _ => []

/-- View a value as a string (used for file-system paths read from the
configuration). -/
def asStr : JVal → String
  | .s v => v
  | _ => ""

/-- Python truthiness for the embedded values: empty containers, empty
strings, `0`, `False` and `None` are falsy. -/
def pyTruthy : JVal → Bool
  | .s v => !v.isEmpty
  | .b v => v
  | .i n => n != 0
  | .none => false
  | .arr l => !l.isEmpty
  | .obj d => !d.isEmpty

/-- Python `str.format` with auto-numbered `\x7b\x7d` fields: each field
consumes the next positional argument; surplus arguments are silently
ignored (exactly as in CPython). -/
def pyFormatAux : List Char → List String → List Char
  | [], _ => []
  | '{' :: '}' :: rest, a :: args => a.toList ++ pyFormatAux rest args
  | '{' :: '}' :: rest, [] => pyFormatAux rest []
  | c :: rest, args => c :: pyFormatAux rest args

/-- Python `template.format(*args)` restricted to auto-numbered fields. -/
def pyFormat (template : String) (args : List String) : String :=
  String.mk (pyFormatAux template.toList args)

/-- Module-level constant `RAY` (both config modules). -/
def RAY : String := "ray-autoscaler"

/-- Module-level constant `PASSWORD_MIN_LENGTH`. -/
def PASSWORD_MIN_LENGTH : Nat := 16

/-- Module-level constant `RETRIES`. -/
def RETRIES : Nat := 10

/-- `_configure_key_pair` (identical in azure/config.py line 215 and
aci/config.py line 247): the key name is built by
`"\x7b\x7d_azure_\x7b\x7d_\x7b\x7d".format(RAY, location, resource_group, ssh_user)`;
note the template has three fields while four arguments are passed. -/
def key_name (location resource_group ssh_user : String) : String :=
  pyFormat "\x7b\x7d_azure_\x7b\x7d_\x7b\x7d" [RAY, location, resource_group, ssh_user]

/-- `public_key_path = os.path.expanduser("~/.ssh/\x7b\x7d.pub".format(key_name))`;
`expanduser` is kept abstract (it is a function of the path alone). -/
def public_key_path (location resource_group ssh_user : String) : String :=
  pyFormat "~/.ssh/\x7b\x7d.pub" [key_name location resource_group ssh_user]

/-- `private_key_path = os.path.expanduser("~/.ssh/\x7b\x7d.pem".format(key_name))`. -/
def private_key_path (location resource_group ssh_user : String) : String :=
  pyFormat "~/.ssh/\x7b\x7d.pem" [key_name location resource_group ssh_user]

/-- The acceptance test of the password-generation loop in
`_configure_service_principal` (azure/config.py lines 132-135):
at least one lowercase, one uppercase, one digit and one
non-alphanumeric character. -/
def password_ok (p : List Char) : Bool :=
  p.any (fun c => c.isLower) && p.any (fun c => c.isUpper) &&
  p.any (fun c => c.isDigit) && p.any (fun c => !c.isAlphanum)

/-- One candidate of the loop body: `"".join(secrets.choice(alphabet) for _
in range(PASSWORD_MIN_LENGTH))`, with the random draws modelled by a
choice function giving the character drawn at each position (each drawn
from the lowercase+uppercase+digits+punctuation alphabet). -/
def candidate_password (choose : Nat → Char) : List Char :=
  (List.range PASSWORD_MIN_LENGTH).map choose

/-- The `while True` generation loop: successive candidates are produced
until one satisfies `password_ok`; the loop is modelled on the stream of
draws it would make, returning the first accepted candidate. -/
def gen_password (chooses : List (Nat → Char)) : Option (List Char) :=
  (chooses.map candidate_password).find? password_ok

/-- Concrete draw stream for the C7 witness: the candidate it yields is
`aB3!aaaaaaaaaaaa`. -/
def c7choose : Nat → Char :=
  fun i => (String.toList "aB3!aaaaaaaaaaaa").getD i 'a'

/-- Environment of `_configure_key_pair`: which paths exist on disk, file
contents, and the public key `_generate_ssh_keys` would produce. -/
structure KeyPairEnv where
  path_exists : String → Bool
  file_content : String → String
  generated_public_key : String

namespace Azure

/-- `DEFAULT_NODE_CONFIG` of azure/config.py (lines 35-62). -/
def DEFAULT_NODE_CONFIG : Obj :=
  [("hardware_profile", .obj [("vm_size", .s "Standard_D2s_v3")]),
   ("storage_profile", .obj
     [("os_disk", .obj [("create_option", .s "FromImage"), ("caching", .s "ReadWrite")]),
      ("image_reference", .obj
        [("publisher", .s "microsoft-dsvm"),
         ("offer", .s "linux-data-science-vm-ubuntu"),
         ("sku", .s "linuxdsvmubuntu"),
         ("version", .s "latest")])]),
   ("os_profile", .obj
     [("admin_username", .s "ubuntu"),
      ("linux_configuration", .obj [("disable_password_authentication", .b true)])]),
   ("priority", .s "Spot"),
   ("evictionPolicy", .s "Deallocate"),
   ("billingProfile", .obj [("maxPrice", .i (-1))])]

/-- `_configure_nodes` of azure/config.py (lines 325-331): the default is
substituted only when the `head_node` / `worker_nodes` key is absent;
a present template is left untouched. -/
def configure_nodes (config : Obj) : Obj :=
  let config :=
    if dhas config "head_node" then config
    else dset config "head_node" (.obj DEFAULT_NODE_CONFIG)
  if dhas config "worker_nodes" then config
  else dset config "worker_nodes" (.obj DEFAULT_NODE_CONFIG)

/-- Outcome of one iteration of the role-assignment retry loop of
`_configure_service_principal` (azure/config.py lines 172-186): the
`try` body either completes its `role_assignments.create` call or raises
a `CloudError` (caught and retried after a sleep). -/
inductive RoleAttempt where
  | cloudError
  | created
deriving DecidableEq

/-- The loop `for _ in range(RETRIES): try ... break except CloudError:
sleep(1)`, over the outcome of each iteration; returns the overall result
together with the number of successful `role_assignments.create` calls.
When the range is exhausted the function simply continues: no error is
raised. -/
def role_retry_from (att : Nat → RoleAttempt) : Nat → Nat → Except String Unit × Nat
  | _, 0 => (Except.ok (), 0)
  | i, fuel + 1 =>
    match att i with
    | .created => (Except.ok (), 1)
    | .cloudError => role_retry_from att (i + 1) fuel

/-- The role-assignment retry loop started at attempt 0 with `RETRIES`
iterations available. -/
def role_retry (att : Nat → RoleAttempt) : Except String Unit × Nat :=
  role_retry_from att 0 RETRIES

/-- Outcome that `network_client.virtual_networks.list` produces on one
iteration of the retry loop in `_configure_network` (azure/config.py
lines 248-257): either an `AuthenticationError` (caught: sleep and
retry) or a list of virtual networks matching the name filter. -/
inductive VnetListOutcome where
  | authError
  | ok (vnets : List String)

/-- Environment of `_configure_network`: the outcome of each listing
attempt and the id of the subnet returned by
`subnets.create_or_update(...).result()`. -/
structure NetEnv where
  list_outcome : Nat → VnetListOutcome
  subnet_id : String

/-- The network API calls `_configure_network` can make, traced in
order. -/
inductive NetCall where
  | listVnets
  | createVnet
  | createSubnet
  | createNsg
deriving DecidableEq

/-- The `vnets = []; for _ in range(RETRIES): try: vnets = list(...); break
except AuthenticationError: sleep(1)` loop: returns the listing result
(empty when every attempt failed) and the trace of listing calls. It
never raises. -/
def list_vnets_from (env : NetEnv) : Nat → Nat → List String × List NetCall
  | _, 0 => ([], [])
  | i, fuel + 1 =>
    match env.list_outcome i with
    | .ok vs => (vs, [NetCall.listVnets])
    | .authError =>
        let r := list_vnets_from env (i + 1) fuel
        (r.1, NetCall.listVnets :: r.2)

/-- The listing retry loop started at attempt 0. -/
def list_vnets (env : NetEnv) : List String × List NetCall :=
  list_vnets_from env 0 RETRIES

/-- Lines 234-237 of azure/config.py:
`config[node_type].get("network_profile", \x7b\x7d).get("network_interfaces", [])`
(`KeyError` when the node template itself is absent). -/
def node_nic (config : Obj) (node_type : String) : Except String JVal :=
  match getItem config node_type with
  | .error e => .error e
  | .ok node =>
      .ok (dgetD (asObj (dgetD (asObj node) "network_profile" (.obj [])))
        "network_interfaces" (.arr []))

/-- `_configure_network` (azure/config.py lines 232-299): early exit when
both node templates carry network interfaces; otherwise read provider
fields, run the listing retry loop, create the virtual network only when
the listing found none, create the subnet and store its id under
`provider.subnet_id`, then build the NSG parameters — whose `location`
is read from the TOP-LEVEL `config["location"]` key — and create the
NSG. Returns the resulting configuration (or the first uncaught error)
plus the trace of network API calls. -/
def configure_network (env : NetEnv) (config : Obj) : Except String Obj × List NetCall :=
  match node_nic config "head_node" with
  | .error e => (.error e, [])
  | .ok head_node_nic =>
  match node_nic config "worker_nodes" with
  | .error e => (.error e, [])
  | .ok worker_nodes_nic =>
  if pyTruthy head_node_nic && pyTruthy worker_nodes_nic then (.ok config, [])
  else
  match getItem config "provider" with
  | .error e => (.error e, [])
  | .ok provider =>
  match getItem (asObj provider) "location" with
  | .error e => (.error e, [])
  | .ok _location =>
  match getItem (asObj provider) "resource_group" with
  | .error e => (.error e, [])
  | .ok _resource_group =>
  match getItem (asObj provider) "auth_path" with
  | .error e => (.error e, [])
  | .ok _auth_path =>
  let vl := list_vnets env
  let vnetCalls := if vl.1.isEmpty then [NetCall.createVnet] else []
  let calls := vl.2 ++ vnetCalls ++ [NetCall.createSubnet]
  let config := dset config "provider" (.obj (dset (asObj provider) "subnet_id" (.s env.subnet_id)))
  match getItem config "location" with
  | .error e => (.error e, calls)
  | .ok _loc => (.ok config, calls ++ [NetCall.createNsg])

/-- `_configure_key_pair` of azure/config.py (lines 202-229). The second
component of the result records whether `_generate_ssh_keys` was
invoked. -/
def configure_key_pair (env : KeyPairEnv) (config : Obj) : Except String (Obj × Bool) :=
  match getItem config "auth" with
  | .error e => .error e
  | .ok auth =>
  let ssh_private_key := dgetD (asObj auth) "ssh_private_key" JVal.none
  if pyTruthy ssh_private_key then
    if env.path_exists (asStr ssh_private_key) then .ok (config, false)
    else .error "AssertionError"
  else
  match getItem config "provider" with
  | .error e => .error e
  | .ok provider =>
  match getItem (asObj provider) "location" with
  | .error e => .error e
  | .ok location =>
  match getItem (asObj provider) "resource_group" with
  | .error e => .error e
  | .ok resource_group =>
  match getItem (asObj auth) "ssh_user" with
  | .error e => .error e
  | .ok ssh_user =>
  let pub := public_key_path (asStr location) (asStr resource_group) (asStr ssh_user)
  let priv := private_key_path (asStr location) (asStr resource_group) (asStr ssh_user)
  let found := env.path_exists pub && env.path_exists priv
  let public_key := if found then env.file_content pub else env.generated_public_key
  let config := dset config "auth" (.obj (dset (asObj auth) "ssh_private_key" (.s priv)))
  let config := dset config "provider"
    (.obj (dset (asObj provider) "ssh_public_key_data" (.s public_key)))
  .ok (config, !found)

end Azure

namespace Aci

/-- Lines 237-239 of aci/config.py: `os_profile = config[node_type]["os_profile"]`
followed by `assert os_profile["linux_configuration"]["ssh"]["public_keys"]`
(each indexing step can raise `KeyError`; a falsy value fails the
assertion). -/
def assert_public_key_config (config : Obj) (node_type : String) : Except String Unit :=
  match getItem config node_type with
  | .error e => .error e
  | .ok node =>
  match getItem (asObj node) "os_profile" with
  | .error e => .error e
  | .ok os_profile =>
  match getItem (asObj os_profile) "linux_configuration" with
  | .error e => .error e
  | .ok lc =>
  match getItem (asObj lc) "ssh" with
  | .error e => .error e
  | .ok sshv =>
  match getItem (asObj sshv) "public_keys" with
  | .error e => .error e
  | .ok pks => if pyTruthy pks then .ok () else .error "AssertionError"

end Aci

namespace Azure

/-- Environment of `_configure_service_principal` (azure/config.py lines
100-199): whether the credentials file exists and the secret stored in
it, whether the application and service principal are already registered,
and the password the generation loop would produce. -/
structure SpEnv where
  auth_file_exists : Bool
  stored_client_secret : String
  generated_password : String
  app_exists : Bool
  sp_exists : Bool

/-- Observable effects of `_configure_service_principal`: the password in
use, whether the generation loop ran, whether an application / service
principal was created, and whether the credentials file was written. -/
structure SpEffects where
  password : String
  generated_new_password : Bool
  app_created : Bool
  sp_created : Bool
  auth_file_written : Bool

/-- `_configure_service_principal` (azure/config.py lines 100-199),
projected onto credentials-file / application / password effects:
`new_auth` starts false, is set when the file is absent (password then
freshly generated, otherwise read from the file) and when the
application lookup finds nothing (application then created); the
credentials file is written at the end iff `new_auth` is set. -/
def configure_service_principal (env : SpEnv) : SpEffects :=
  let new_auth := false
  let p :=
    if env.auth_file_exists then (new_auth, env.stored_client_secret, false)
    else (true, env.generated_password, true)
  let q := if env.app_exists then (p.1, false) else (true, true)
  { password := p.2.1
    generated_new_password := p.2.2
    app_created := q.2
    sp_created := !env.sp_exists
    auth_file_written := q.1 }

end Azure

namespace Aci

/-- `TAG_RAY_NODE_NAME`, imported from `ray.autoscaler.tags` (not part of
this repository's sources); an opaque string constant whose value is
immaterial to every claim. -/
def TAG_RAY_NODE_NAME : String := "ray-node-name"

/-- `DEFAULT_NODE_CONFIG` of aci/config.py (lines 52-78), as dict contents
(the heap/aliasing structure is modelled separately below). -/
def DEFAULT_NODE_CONFIG : Obj :=
  [("hardware_profile", .obj [("vm_size", .s "Standard_D2s_v3")]),
   ("storage_profile", .obj
     [("os_disk", .obj [("create_option", .s "FromImage"), ("caching", .s "ReadWrite")]),
      ("image_reference", .obj
        [("publisher", .s "microsoft-dsvm"),
         ("offer", .s "linux-data-science-vm-ubuntu"),
         ("sku", .s "linuxdsvmubuntu"),
         ("version", .s "latest")])]),
   ("os_profile", .obj
     [("admin_username", .s "ubuntu"),
      ("computer_name", .s TAG_RAY_NODE_NAME),
      ("linux_configuration", .obj
        [("disable_password_authentication", .b true),
         ("ssh", .obj [("public_keys", JVal.none)])])])]

/-- `_configure_nodes` of aci/config.py (lines 298-304): for each node
type, `node_config = DEFAULT_NODE_CONFIG.copy()` then
`node_config.update(config.get(node_type, {}))` then
`config[node_type] = node_config`. -/
def configure_nodes (config : Obj) : Obj :=
  let step := fun (cfg : Obj) (node_type : String) =>
    let node_config := DEFAULT_NODE_CONFIG
    let node_config := dupdate node_config (asObj (dgetD cfg node_type (.obj [])))
    dset cfg node_type (.obj node_config)
  step (step config "head_node") "worker_nodes"

/-- Outcome of one iteration of the retry loop in `assign_role`
(aci/config.py lines 123-152): the `try` body either finds an existing
matching role assignment in `role_assignments.list_for_scope` (returns,
creating nothing), creates the assignment and returns, or raises a
`CloudError` whose text either starts with `Azure Error: PrincipalNotFound`
(caught: sleep and retry) or not (re-raised). -/
inductive MsiRoleAttempt where
  | principalNotFound
  | otherCloudError (msg : String)
  | foundExisting
  | created
deriving DecidableEq

/-- The `for _ in range(RETRIES)` loop of `assign_role`; returns the
overall result with the number of successful
`role_assignments.create` calls. Falling off the end of the loop raises
`Exception("Failed to create contributor role assignment")`. -/
def assign_role_from (att : Nat → MsiRoleAttempt) : Nat → Nat → Except String Unit × Nat
  | _, 0 => (Except.error "Failed to create contributor role assignment", 0)
  | i, fuel + 1 =>
    match att i with
    | .foundExisting => (Except.ok (), 0)
    | .created => (Except.ok (), 1)
    | .principalNotFound => assign_role_from att (i + 1) fuel
    | .otherCloudError m => (Except.error m, 0)

/-- `assign_role` (aci/config.py lines 123-154), started at attempt 0. -/
def assign_role (att : Nat → MsiRoleAttempt) : Except String Unit × Nat :=
  assign_role_from att 0 RETRIES

/-- `_configure_key_pair` of aci/config.py (lines 231-272), with dict
value semantics; the aliasing effects of the public-key injection on the
module-level default configuration are modelled on an explicit heap
below. The second result component records whether `_generate_ssh_keys`
was invoked. -/
def configure_key_pair (env : KeyPairEnv) (config : Obj) : Except String (Obj × Bool) :=
  match getItem config "auth" with
  | .error e => .error e
  | .ok auth =>
  let ssh_private_key := dgetD (asObj auth) "ssh_private_key" JVal.none
  if pyTruthy ssh_private_key then
    if env.path_exists (asStr ssh_private_key) then
      match assert_public_key_config config "head_node" with
      | .error e => .error e
      | .ok _ =>
      match assert_public_key_config config "worker_nodes" with
      | .error e => .error e
      | .ok _ => .ok (config, false)
    else .error "AssertionError"
  else
  match getItem config "provider" with
  | .error e => .error e
  | .ok provider =>
  match getItem (asObj provider) "location" with
  | .error e => .error e
  | .ok location =>
  match getItem (asObj provider) "resource_group" with
  | .error e => .error e
  | .ok resource_group =>
  match getItem (asObj auth) "ssh_user" with
  | .error e => .error e
  | .ok ssh_user =>
  let pub := public_key_path (asStr location) (asStr resource_group) (asStr ssh_user)
  let priv := private_key_path (asStr location) (asStr resource_group) (asStr ssh_user)
  let found := env.path_exists pub && env.path_exists priv
  let public_key := if found then env.file_content pub else env.generated_public_key
  let config := dset config "auth" (.obj (dset (asObj auth) "ssh_private_key" (.s priv)))
  let public_keys : JVal := .arr
    [.obj [("key_data", .s public_key),
           ("path", .s ("/home/" ++ asStr ssh_user ++ "/.ssh/authorized_keys"))]]
  let os_profile := asObj (dgetD DEFAULT_NODE_CONFIG "os_profile" (.obj []))
  let lc := asObj (dgetD os_profile "linux_configuration" (.obj []))
  let sshd := dset (asObj (dgetD lc "ssh" (.obj []))) "public_keys" public_keys
  let os_config := dset os_profile "linux_configuration" (.obj (dset lc "ssh" (.obj sshd)))
  let step := fun (cfg : Obj) (node_type : String) =>
    let config_type := asObj (dgetD cfg node_type (.obj []))
    let config_type := dupdate config_type [("os_profile", .obj os_config)]
    dset cfg node_type (.obj config_type)
  .ok (step (step config "head_node") "worker_nodes", !found)

end Aci

namespace AciHeap

/-- Python values for the heap model of aci/config.py: dicts live on the
heap and are referred to by address, so shallow copying and in-place
mutation behave exactly as in Python. -/
inductive HVal where
  | s : String → HVal
  | b : Bool → HVal
  | none : HVal
  | ref : Nat → HVal
  | arr : List HVal → HVal

/-- The contents of one dict object. -/
abbrev HDict := List (String × HVal)

/-- A heap of dict objects, addressed by position. -/
structure Heap where
  store : List HDict

/-- Dereference an address (addresses used by the model are always
allocated). -/
def Heap.read (h : Heap) (a : Nat) : HDict :=
  (h.store.get? a).getD []

/-- Overwrite the object at an address (in-place dict mutation). -/
def Heap.write (h : Heap) (a : Nat) (d : HDict) : Heap :=
  ⟨h.store.set a d⟩

/-- Allocate a fresh dict object, returning its address. -/
def Heap.alloc (h : Heap) (d : HDict) : Heap × Nat :=
  (⟨h.store ++ [d]⟩, h.store.length)

/-- Address of the dict bound to `DEFAULT_NODE_CONFIG["hardware_profile"]`. -/
def hwAddr : Nat := 0

/-- Address of the `os_disk` dict. -/
def osDiskAddr : Nat := 1

/-- Address of the `image_reference` dict. -/
def imgAddr : Nat := 2

/-- Address of the `storage_profile` dict. -/
def storageAddr : Nat := 3

/-- Address of the `ssh` dict nested in the default `os_profile` (the one
holding `public_keys`). -/
def sshAddr : Nat := 4

/-- Address of the `linux_configuration` dict of the default
`os_profile`. -/
def lcAddr : Nat := 5

/-- Address of the dict bound to `DEFAULT_NODE_CONFIG["os_profile"]`. -/
def osAddr : Nat := 6

/-- Address of the module-level `DEFAULT_NODE_CONFIG` dict itself. -/
def defaultNodeConfigAddr : Nat := 7

/-- The heap as left by evaluating the module-level `DEFAULT_NODE_CONFIG`
literal of aci/config.py (lines 52-78): one object per nested dict. -/
def initialHeap : Heap :=
  ⟨[[("vm_size", .s "Standard_D2s_v3")],
    [("create_option", .s "FromImage"), ("caching", .s "ReadWrite")],
    [("publisher", .s "microsoft-dsvm"),
     ("offer", .s "linux-data-science-vm-ubuntu"),
     ("sku", .s "linuxdsvmubuntu"),
     ("version", .s "latest")],
    [("os_disk", .ref osDiskAddr), ("image_reference", .ref imgAddr)],
    [("public_keys", HVal.none)],
    [("disable_password_authentication", .b true), ("ssh", .ref sshAddr)],
    [("admin_username", .s "ubuntu"),
     ("computer_name", .s Aci.TAG_RAY_NODE_NAME),
     ("linux_configuration", .ref lcAddr)],
    [("hardware_profile", .ref hwAddr),
     ("storage_profile", .ref storageAddr),
     ("os_profile", .ref osAddr)]]⟩

/-- Read key `k` of the dict at address `a` as an address (`d[k]` where the
value is itself a dict; a non-reference would be a Python `TypeError`,
which never occurs on this heap). -/
def readRef (h : Heap) (a : Nat) (k : String) : Nat :=
  match dget? (h.read a) k with
  | some (.ref r) => r
  | _ => 0

/-- One iteration of the loop at aci/config.py lines 265-270:
`os_config = DEFAULT_NODE_CONFIG["os_profile"].copy()` (a fresh dict
sharing the nested `linux_configuration` reference),
`os_config["linux_configuration"]["ssh"]["public_keys"] = public_keys`
(mutating the shared nested dict in place),
`config_type = config.get(node_type, \x7b\x7d)`,
`config_type.update(\x7b"os_profile": os_config\x7d)`,
`config[node_type] = config_type`. -/
def inject_step (h : Heap) (cfgAddr : Nat) (node_type : String) (pks : HVal) : Heap :=
  let osSrc := readRef h defaultNodeConfigAddr "os_profile"
  let al := h.alloc (h.read osSrc)
  let h := al.1
  let osCfg := al.2
  let lc := readRef h osCfg "linux_configuration"
  let sshA := readRef h lc "ssh"
  let h := h.write sshA (dset (h.read sshA) "public_keys" pks)
  match dget? (h.read cfgAddr) node_type with
  | some (.ref t) =>
      let h := h.write t (dset (h.read t) "os_profile" (.ref osCfg))
      h.write cfgAddr (dset (h.read cfgAddr) node_type (.ref t))
  | _ =>
      let al2 := h.alloc [("os_profile", .ref osCfg)]
      al2.1.write cfgAddr (dset (al2.1.read cfgAddr) node_type (.ref al2.2))

/-- Lines 260-270 of aci/config.py: build the `public_keys` list (one dict
with the key data and the authorized-keys path), then run the injection
loop over `head_node` and `worker_nodes`. -/
def inject_public_keys (h : Heap) (cfgAddr : Nat) (public_key ssh_user : String) : Heap :=
  let al := h.alloc
    [("key_data", .s public_key),
     ("path", .s ("/home/" ++ ssh_user ++ "/.ssh/authorized_keys"))]
  let pks : HVal := .arr [.ref al.2]
  let h := inject_step al.1 cfgAddr "head_node" pks
  inject_step h cfgAddr "worker_nodes" pks

/-- Address of the caller-supplied `os_profile` dict of the head node in
the setup below. -/
def callerOsHAddr : Nat := 8

/-- Address of the caller's head-node template dict. -/
def headAddr : Nat := 9

/-- Address of the caller-supplied `os_profile` dict of the workers. -/
def callerOsWAddr : Nat := 10

/-- Address of the caller's worker-nodes template dict. -/
def workerAddr : Nat := 11

/-- Address of the caller's configuration dict. -/
def cfgAddr : Nat := 12

/-- Address allocated for the public-key entry dict. -/
def pkEntryAddr : Nat := 13

/-- Address allocated for the head node's `os_profile` copy. -/
def osCopyHeadAddr : Nat := 14

/-- Address allocated for the workers' `os_profile` copy. -/
def osCopyWorkerAddr : Nat := 15

/-- A caller configuration on top of the module heap: head and worker
templates each carrying an arbitrary caller-supplied `os_profile`
dict. -/
def setup (callerOsH callerOsW : HDict) : Heap :=
  let a1 := initialHeap.alloc callerOsH
  let a2 := a1.1.alloc [("os_profile", .ref a1.2)]
  let a3 := a2.1.alloc callerOsW
  let a4 := a3.1.alloc [("os_profile", .ref a3.2)]
  (a4.1.alloc [("head_node", .ref a2.2), ("worker_nodes", .ref a4.2)]).1

/-- The heap after running the public-key injection on the caller
configuration built by `setup`. -/
def run (callerOsH callerOsW : HDict) (public_key ssh_user : String) : Heap :=
  inject_public_keys (setup callerOsH callerOsW) cfgAddr public_key ssh_user

/-- The `public_keys` value the injection stores: a one-element list
holding a reference to the public-key entry dict. -/
def injectedKeys : HVal := .arr [.ref pkEntryAddr]

/-- The store of `setup` extended with the public-key entry dict
(intermediate state used to stage the heap computation). -/
def stage0 (cH cW : HDict) (pk u : String) : Heap :=
  ⟨[[("vm_size", .s "Standard_D2s_v3")],
    [("create_option", .s "FromImage"), ("caching", .s "ReadWrite")],
    [("publisher", .s "microsoft-dsvm"),
     ("offer", .s "linux-data-science-vm-ubuntu"),
     ("sku", .s "linuxdsvmubuntu"),
     ("version", .s "latest")],
    [("os_disk", .ref osDiskAddr), ("image_reference", .ref imgAddr)],
    [("public_keys", HVal.none)],
    [("disable_password_authentication", .b true), ("ssh", .ref sshAddr)],
    [("admin_username", .s "ubuntu"),
     ("computer_name", .s Aci.TAG_RAY_NODE_NAME),
     ("linux_configuration", .ref lcAddr)],
    [("hardware_profile", .ref hwAddr),
     ("storage_profile", .ref storageAddr),
     ("os_profile", .ref osAddr)],
    cH,
    [("os_profile", .ref callerOsHAddr)],
    cW,
    [("os_profile", .ref callerOsWAddr)],
    [("head_node", .ref headAddr), ("worker_nodes", .ref workerAddr)],
    [("key_data", .s pk), ("path", .s ("/home/" ++ u ++ "/.ssh/authorized_keys"))]]⟩

/-- The heap after the head-node iteration of the injection loop. -/
def stage1 (cH cW : HDict) (pk u : String) : Heap :=
  ⟨[[("vm_size", .s "Standard_D2s_v3")],
    [("create_option", .s "FromImage"), ("caching", .s "ReadWrite")],
    [("publisher", .s "microsoft-dsvm"),
     ("offer", .s "linux-data-science-vm-ubuntu"),
     ("sku", .s "linuxdsvmubuntu"),
     ("version", .s "latest")],
    [("os_disk", .ref osDiskAddr), ("image_reference", .ref imgAddr)],
    [("public_keys", injectedKeys)],
    [("disable_password_authentication", .b true), ("ssh", .ref sshAddr)],
    [("admin_username", .s "ubuntu"),
     ("computer_name", .s Aci.TAG_RAY_NODE_NAME),
     ("linux_configuration", .ref lcAddr)],
    [("hardware_profile", .ref hwAddr),
     ("storage_profile", .ref storageAddr),
     ("os_profile", .ref osAddr)],
    cH,
    [("os_profile", .ref osCopyHeadAddr)],
    cW,
    [("os_profile", .ref callerOsWAddr)],
    [("head_node", .ref headAddr), ("worker_nodes", .ref workerAddr)],
    [("key_data", .s pk), ("path", .s ("/home/" ++ u ++ "/.ssh/authorized_keys"))],
    [("admin_username", .s "ubuntu"),
     ("computer_name", .s Aci.TAG_RAY_NODE_NAME),
     ("linux_configuration", .ref lcAddr)]]⟩

/-- The heap after both iterations of the injection loop (the final state
of `run`). -/
def stage2 (cH cW : HDict) (pk u : String) : Heap :=
  ⟨[[("vm_size", .s "Standard_D2s_v3")],
    [("create_option", .s "FromImage"), ("caching", .s "ReadWrite")],
    [("publisher", .s "microsoft-dsvm"),
     ("offer", .s "linux-data-science-vm-ubuntu"),
     ("sku", .s "linuxdsvmubuntu"),
     ("version", .s "latest")],
    [("os_disk", .ref osDiskAddr), ("image_reference", .ref imgAddr)],
    [("public_keys", injectedKeys)],
    [("disable_password_authentication", .b true), ("ssh", .ref sshAddr)],
    [("admin_username", .s "ubuntu"),
     ("computer_name", .s Aci.TAG_RAY_NODE_NAME),
     ("linux_configuration", .ref lcAddr)],
    [("hardware_profile", .ref hwAddr),
     ("storage_profile", .ref storageAddr),
     ("os_profile", .ref osAddr)],
    cH,
    [("os_profile", .ref osCopyHeadAddr)],
    cW,
    [("os_profile", .ref osCopyWorkerAddr)],
    [("head_node", .ref headAddr), ("worker_nodes", .ref workerAddr)],
    [("key_data", .s pk), ("path", .s ("/home/" ++ u ++ "/.ssh/authorized_keys"))],
    [("admin_username", .s "ubuntu"),
     ("computer_name", .s Aci.TAG_RAY_NODE_NAME),
     ("linux_configuration", .ref lcAddr)],
    [("admin_username", .s "ubuntu"),
     ("computer_name", .s Aci.TAG_RAY_NODE_NAME),
     ("linux_configuration", .ref lcAddr)]]⟩

end AciHeap

/-- Concrete configuration with a partial head-node template (only a
hardware profile) and no worker template. -/
def c2cfg : Obj := [("head_node", .obj [("hardware_profile", .s "custom")])]

/-- Concrete partial head-node template for the merge example. -/
def c2t : Obj := [("hardware_profile", .s "Standard_NC6")]

/-- Concrete partial worker-nodes template for the merge example. -/
def c2tW : Obj := [("os_profile", .s "custom-os")]

/-- Concrete configuration holding `c2t` and `c2tW` as caller-supplied
node templates. -/
def c2wcfg : Obj := [("head_node", .obj c2t), ("worker_nodes", .obj c2tW)]

/-- Attempt trace where every iteration raises the principal-not-found
error. -/
def c3attF : Nat → Aci.MsiRoleAttempt := fun _ => .principalNotFound

/-- Attempt trace with three principal-not-found errors and then a
successful creation. -/
def c3attS : Nat → Aci.MsiRoleAttempt :=
  fun i => if i < 3 then .principalNotFound else .created

/-- Attempt trace for the service-principal loop: two `CloudError`s and
then a successful creation. -/
def c3attA : Nat → Azure.RoleAttempt :=
  fun i => if i < 2 then .cloudError else .created

/-- Concrete service-principal environment: credentials file present with
a stored secret, application and service principal both registered. -/
def c4env : Azure.SpEnv :=
  { auth_file_exists := true
    stored_client_secret := "stored-secret"
    generated_password := "fresh-password"
    app_exists := true
    sp_exists := true }

/-- Concrete network environment whose listing succeeds immediately. -/
def c5env : Azure.NetEnv :=
  { list_outcome := fun _ => .ok ["ray-vnet"], subnet_id := "subnet-1" }

/-- Concrete configuration in which both node templates already carry a
network interface. -/
def c5cfg : Obj :=
  [("head_node", .obj
     [("network_profile", .obj [("network_interfaces", .arr [.s "nic-head"])])]),
   ("worker_nodes", .obj
     [("network_profile", .obj [("network_interfaces", .arr [.s "nic-worker"])])]),
   ("provider", .obj [("location", .s "westus"), ("resource_group", .s "rg1"),
      ("auth_path", .s "auth.json")])]

/-- Concrete network environment in which every listing attempt raises the
authentication error. -/
def c6env : Azure.NetEnv :=
  { list_outcome := fun _ => .authError, subnet_id := "subnet-1" }

/-- Concrete configuration without network interfaces and with the
location stored only under `provider`, as the data model prescribes. -/
def c6cfg : Obj :=
  [("head_node", .obj []),
   ("worker_nodes", .obj []),
   ("provider", .obj [("location", .s "westus"), ("resource_group", .s "rg1"),
      ("auth_path", .s "auth.json")])]

/-- Concrete key-pair environment for the c8 counterexample: only
`/k.pem` exists on disk. -/
def c8env : KeyPairEnv :=
  { path_exists := fun p => p == "/k.pem"
    file_content := fun _ => ""
    generated_public_key := "ssh-rsa generated" }

/-- Concrete ACI configuration whose manually specified private key exists
on disk but whose node templates carry no SSH public-key configuration
(`public_keys` is `None`, exactly as in the module default). -/
def c8cfg : Obj :=
  [("auth", .obj [("ssh_private_key", .s "/k.pem")]),
   ("head_node", .obj [("os_profile", .obj
      [("linux_configuration", .obj [("ssh", .obj [("public_keys", JVal.none)])])])]),
   ("worker_nodes", .obj [("os_profile", .obj
      [("linux_configuration", .obj [("ssh", .obj [("public_keys", JVal.none)])])])])]

/-- Key-pair environment for the c8 witness: `/a.pem` exists, `/b.pem`
does not. -/
def c8wenv : KeyPairEnv :=
  { path_exists := fun p => p == "/a.pem"
    file_content := fun _ => ""
    generated_public_key := "ssh-rsa generated" }

/-- Configuration with an existing manually specified private key. -/
def c8wcfgA : Obj := [("auth", .obj [("ssh_private_key", .s "/a.pem")])]

/-- Configuration whose manually specified private key does not exist. -/
def c8wcfgB : Obj := [("auth", .obj [("ssh_private_key", .s "/b.pem")])]

/-- ACI configuration with an existing manually specified private key and
SSH public-key configuration present in both node templates. -/
def c8wcfgAci : Obj :=
  [("auth", .obj [("ssh_private_key", .s "/a.pem")]),
   ("head_node", .obj [("os_profile", .obj
      [("linux_configuration", .obj
        [("ssh", .obj [("public_keys", .arr [.s "key"])])])])]),
   ("worker_nodes", .obj [("os_profile", .obj
      [("linux_configuration", .obj
        [("ssh", .obj [("public_keys", .arr [.s "key"])])])])])]

/-- C1: the key file path is claimed to depend on all four of namespace
prefix, location, resource group and SSH user; in the code the format
template has only three fields, so the fourth argument (the SSH user) is
dropped and two configurations differing only in the SSH user get the
same private- and public-key paths. Evaluation at the failing input. -/
theorem key_paths_ignore_ssh_user :
    private_key_path "westus" "rg1" "alice" = private_key_path "westus" "rg1" "bob" ∧
    public_key_path "westus" "rg1" "alice" = public_key_path "westus" "rg1" "bob" ∧
    private_key_path "westus" "rg1" "alice" =
      "~/.ssh/ray-autoscaler_azure_westus_rg1.pem" := by
  refine ⟨rfl, rfl, rfl⟩

/-- C7: any password returned by the generation loop has length at least
`PASSWORD_MIN_LENGTH` (it is exactly 16 characters by construction) and
contains a lowercase letter, an uppercase letter, a digit and a
non-alphanumeric (punctuation) character. -/
theorem gen_password_policy (chooses : List (Nat → Char)) (p : List Char)
    (h : gen_password chooses = some p) :
    PASSWORD_MIN_LENGTH ≤ p.length ∧
    p.any (fun c => c.isLower) = true ∧
    p.any (fun c => c.isUpper) = true ∧
    p.any (fun c => c.isDigit) = true ∧
    p.any (fun c => !c.isAlphanum) = true := by
  have hok : password_ok p = true := List.find?_some h
  have hmem : p ∈ chooses.map candidate_password := List.mem_of_find?_eq_some h
  have hlen : p.length = PASSWORD_MIN_LENGTH := by
    rcases List.mem_map.1 hmem with ⟨c, _, rfl⟩
    simp [candidate_password]
  simp only [password_ok, Bool.and_eq_true] at hok
  exact ⟨le_of_eq hlen.symm, hok.1.1.1, hok.1.1.2, hok.1.2, hok.2⟩

/-- C7 witness: the policy theorem applied to a concrete draw stream. -/
theorem gen_password_policy_witness :
    PASSWORD_MIN_LENGTH ≤ (candidate_password c7choose).length ∧
    (candidate_password c7choose).any (fun c => c.isLower) = true ∧
    (candidate_password c7choose).any (fun c => c.isUpper) = true ∧
    (candidate_password c7choose).any (fun c => c.isDigit) = true ∧
    (candidate_password c7choose).any (fun c => !c.isAlphanum) = true :=
  gen_password_policy [c7choose] (candidate_password c7choose) (by rfl)

/-- Lookup after a store: the stored key wins, other keys are
unchanged. -/
theorem dget?_dset {α : Type} (d : List (String × α)) (k k1 : String) (v : α) :
    dget? (dset d k v) k1 = if k = k1 then some v else dget? d k1 := by
  induction d with
  | nil =>
      by_cases h : k = k1 <;> simp [dset, dget?, h]
  | cons p rest ih =>
      obtain ⟨k0, v0⟩ := p
      by_cases h0 : k0 = k
      · subst h0
        by_cases h1 : k0 = k1 <;> simp [dset, dget?, h1]
      · by_cases h1 : k0 = k1
        · subst h1
          have hne : k ≠ k0 := fun h => h0 h.symm
          simp [dset, dget?, h0, hne]
        · simp [dset, dget?, h0, h1, ih]

/-- A key that does not occur in a dict looks up to `none`. -/
theorem dget?_not_mem {α : Type} (d : List (String × α)) (k : String)
    (h : k ∉ d.map Prod.fst) : dget? d k = Option.none := by
  induction d with
  | nil => rfl
  | cons p rest ih =>
      obtain ⟨k0, v0⟩ := p
      simp only [List.map_cons, List.mem_cons] at h
      push_neg at h
      have hne : k0 ≠ k := fun he => h.1 he.symm
      simp [dget?, hne, ih h.2]

/-- Shallow-merge semantics of `base.copy()` followed by
`.update(override)`: an override key wins, any other key falls back to
the base (override keys must be unique, as they are in a Python dict). -/
theorem dget?_dupdate {α : Type} (d t : List (String × α)) (k : String)
    (hnd : (t.map Prod.fst).Nodup) :
    dget? (dupdate d t) k =
      match dget? t k with
      | some v => some v
      | Option.none => dget? d k := by
  induction t generalizing d with
  | nil => simp [dupdate, dget?]
  | cons p rest ih =>
      obtain ⟨k1, v1⟩ := p
      simp only [List.map_cons, List.nodup_cons] at hnd
      have step : dupdate d ((k1, v1) :: rest) = dupdate (dset d k1 v1) rest := rfl
      rw [step, ih (dset d k1 v1) hnd.2]
      by_cases h : k1 = k
      · subst h
        have hnone : dget? rest k1 = Option.none := dget?_not_mem rest k1 hnd.1
        simp [dget?, hnone, dget?_dset]
      · simp [dget?, h, dget?_dset]

/-- C2 counterexample: in the Azure variant a caller-supplied partial
head-node template is kept verbatim and NOT merged with the defaults:
the default field `priority` (present in `DEFAULT_NODE_CONFIG`, absent
from the caller template) is missing from the result, contradicting the
claim that the merged result contains every default field the caller
did not supply. -/
theorem azure_nodes_no_merge :
    dget? Azure.DEFAULT_NODE_CONFIG "priority" = some (.s "Spot") ∧
    Azure.configure_nodes c2cfg =
      [("head_node", .obj [("hardware_profile", .s "custom")]),
       ("worker_nodes", .obj Azure.DEFAULT_NODE_CONFIG)] ∧
    dget? (asObj (dgetD (Azure.configure_nodes c2cfg) "head_node" (.obj [])))
      "priority" = Option.none :=
  ⟨rfl, rfl, rfl⟩

/-- C2 (amended): in the ACI variant the node-defaults stage merges BOTH
the head-node and the worker-nodes templates with override-wins
semantics: every caller-supplied top-level field is preserved verbatim
and every key the caller did not supply falls back to the module
default. In the Azure variant no merge happens: a caller-supplied
template is kept verbatim with no default fields added, and the full
default is substituted exactly when the template key is absent. -/
theorem nodes_defaults_behavior (cfg tH tW : Obj)
    (hH : dget? cfg "head_node" = some (.obj tH))
    (hW : dget? cfg "worker_nodes" = some (.obj tW))
    (hndH : (tH.map Prod.fst).Nodup) (hndW : (tW.map Prod.fst).Nodup) (k : String) :
    (∃ mH : Obj, dget? (Aci.configure_nodes cfg) "head_node" = some (.obj mH) ∧
      (∀ v, dget? tH k = some v → dget? mH k = some v) ∧
      (dget? tH k = Option.none → dget? mH k = dget? Aci.DEFAULT_NODE_CONFIG k)) ∧
    (∃ mW : Obj, dget? (Aci.configure_nodes cfg) "worker_nodes" = some (.obj mW) ∧
      (∀ v, dget? tW k = some v → dget? mW k = some v) ∧
      (dget? tW k = Option.none → dget? mW k = dget? Aci.DEFAULT_NODE_CONFIG k)) ∧
    dget? (Azure.configure_nodes cfg) "head_node" = some (.obj tH) ∧
    dget? (Azure.configure_nodes cfg) "worker_nodes" = some (.obj tW) ∧
    (∀ cfg2 : Obj, dget? cfg2 "head_node" = Option.none →
      dget? (Azure.configure_nodes cfg2) "head_node"
        = some (.obj Azure.DEFAULT_NODE_CONFIG)) ∧
    (∀ cfg2 : Obj, dget? cfg2 "worker_nodes" = Option.none →
      dget? (Azure.configure_nodes cfg2) "worker_nodes"
        = some (.obj Azure.DEFAULT_NODE_CONFIG)) := by
  have haci : Aci.configure_nodes cfg =
      dset (dset cfg "head_node" (.obj (dupdate Aci.DEFAULT_NODE_CONFIG tH)))
        "worker_nodes" (.obj (dupdate Aci.DEFAULT_NODE_CONFIG tW)) := by
    simp [Aci.configure_nodes, dgetD, hH, hW, dget?_dset, asObj]
  have hdH : dhas cfg "head_node" = true := by simp [dhas, hH]
  have hdW : dhas cfg "worker_nodes" = true := by simp [dhas, hW]
  have haz : Azure.configure_nodes cfg = cfg := by
    simp [Azure.configure_nodes, hdH, hdW]
  refine ⟨⟨dupdate Aci.DEFAULT_NODE_CONFIG tH, ?_, ?_, ?_⟩,
    ⟨dupdate Aci.DEFAULT_NODE_CONFIG tW, ?_, ?_, ?_⟩, ?_, ?_, ?_, ?_⟩
  · rw [haci, dget?_dset, if_neg (by decide : ¬("worker_nodes" = "head_node")),
      dget?_dset, if_pos rfl]
  · intro v hv
    rw [dget?_dupdate _ _ _ hndH, hv]
  · intro hv
    rw [dget?_dupdate _ _ _ hndH, hv]
  · rw [haci, dget?_dset, if_pos rfl]
  · intro v hv
    rw [dget?_dupdate _ _ _ hndW, hv]
  · intro hv
    rw [dget?_dupdate _ _ _ hndW, hv]
  · rw [haz]; exact hH
  · rw [haz]; exact hW
  · intro cfg2 habs
    have hd : dhas cfg2 "head_node" = false := by simp [dhas, habs]
    by_cases hw2 : dhas (dset cfg2 "head_node" (.obj Azure.DEFAULT_NODE_CONFIG)) "worker_nodes"
    · simp [Azure.configure_nodes, hd, hw2, dget?_dset]
    · simp [Azure.configure_nodes, hd, hw2, dget?_dset]
  · intro cfg2 habs
    cases hh2 : dget? cfg2 "head_node" with
    | none => simp [Azure.configure_nodes, dhas, hh2, habs, dget?_dset]
    | some v => simp [Azure.configure_nodes, dhas, hh2, habs, dget?_dset]

/-- C2 witness: the node-defaults theorem at concrete caller templates —
the ACI merge fills the head template's missing `os_profile` from the
default and keeps the worker template's caller-supplied `os_profile`
verbatim, the Azure variant keeps the present head template verbatim,
and substitutes the full default for an absent worker template. -/
theorem nodes_defaults_behavior_witness :
    (∃ mH : Obj, dget? (Aci.configure_nodes c2wcfg) "head_node" = some (.obj mH) ∧
      dget? mH "os_profile" = dget? Aci.DEFAULT_NODE_CONFIG "os_profile") ∧
    (∃ mW : Obj, dget? (Aci.configure_nodes c2wcfg) "worker_nodes" = some (.obj mW) ∧
      dget? mW "os_profile" = some (.s "custom-os")) ∧
    dget? (Azure.configure_nodes c2wcfg) "head_node" = some (.obj c2t) ∧
    dget? (Azure.configure_nodes c2cfg) "worker_nodes"
      = some (.obj Azure.DEFAULT_NODE_CONFIG) := by
  obtain ⟨⟨mH, hH1, _, hH3⟩, ⟨mW, hW1, hW2, _⟩, hA1, _, _, hA4⟩ :=
    nodes_defaults_behavior c2wcfg c2t c2tW rfl rfl (by decide) (by decide) "os_profile"
  exact ⟨⟨mH, hH1, hH3 rfl⟩, ⟨mW, hW1, hW2 _ rfl⟩, hA1, hA4 c2cfg rfl⟩

/-- If every available attempt raises the principal-not-found error, the
managed-identity role-assignment loop exhausts its fuel and ends in the
terminal error, creating no assignment. -/
theorem assign_role_from_all_pnf (att : Nat → Aci.MsiRoleAttempt) :
    ∀ fuel i, (∀ j, j < fuel → att (i + j) = .principalNotFound) →
      Aci.assign_role_from att i fuel =
        (Except.error "Failed to create contributor role assignment", 0) := by
  intro fuel
  induction fuel with
  | zero => intro i _; rfl
  | succ n ih =>
      intro i h
      have h0 : att i = .principalNotFound := by
        have := h 0 (Nat.succ_pos n); simpa using this
      have hrec := ih (i + 1) (fun j hj => by
        rw [show i + 1 + j = i + (j + 1) by omega]
        exact h (j + 1) (by omega))
      simp [Aci.assign_role_from, h0, hrec]

/-- If the first `k` attempts raise principal-not-found and attempt `k`
(within the fuel) creates the assignment, the managed-identity loop
succeeds with exactly one creation. -/
theorem assign_role_from_success (att : Nat → Aci.MsiRoleAttempt) :
    ∀ fuel k i, k < fuel → (∀ j, j < k → att (i + j) = .principalNotFound) →
      att (i + k) = .created →
      Aci.assign_role_from att i fuel = (Except.ok (), 1) := by
  intro fuel
  induction fuel with
  | zero => intro k i hk _ _; exact absurd hk (Nat.not_lt_zero k)
  | succ n ih =>
      intro k i hk hpre hc
      cases k with
      | zero =>
          have h0 : att i = .created := by simpa using hc
          simp [Aci.assign_role_from, h0]
      | succ m =>
          have h0 : att i = .principalNotFound := by
            have := hpre 0 (Nat.succ_pos m); simpa using this
          have hrec := ih m (i + 1) (by omega)
            (fun j hj => by
              rw [show i + 1 + j = i + (j + 1) by omega]
              exact hpre (j + 1) (by omega))
            (by rw [show i + 1 + m = i + (m + 1) by omega]; exact hc)
          simp [Aci.assign_role_from, h0, hrec]

/-- If the first `kA` attempts raise `CloudError` and attempt `kA` (within
the fuel) creates the assignment, the service-principal loop succeeds
with exactly one creation. -/
theorem role_retry_from_success (att : Nat → Azure.RoleAttempt) :
    ∀ fuel k i, k < fuel → (∀ j, j < k → att (i + j) = .cloudError) →
      att (i + k) = .created →
      Azure.role_retry_from att i fuel = (Except.ok (), 1) := by
  intro fuel
  induction fuel with
  | zero => intro k i hk _ _; exact absurd hk (Nat.not_lt_zero k)
  | succ n ih =>
      intro k i hk hpre hc
      cases k with
      | zero =>
          have h0 : att i = .created := by simpa using hc
          simp [Azure.role_retry_from, h0]
      | succ m =>
          have h0 : att i = .cloudError := by
            have := hpre 0 (Nat.succ_pos m); simpa using this
          have hrec := ih m (i + 1) (by omega)
            (fun j hj => by
              rw [show i + 1 + j = i + (j + 1) by omega]
              exact hpre (j + 1) (by omega))
            (by rw [show i + 1 + m = i + (m + 1) by omega]; exact hc)
          simp [Azure.role_retry_from, h0, hrec]

/-- C3 counterexample: in the Azure service-principal variant, when the
error occurs on every one of the bounded retry attempts, the loop
exhausts silently: the function continues with no terminal error raised
(result is `ok`) and no role assignment created — contradicting the
claim that the stage raises a terminal error after exhausting retries. -/
theorem azure_role_retry_exhausts_silently :
    Azure.role_retry (fun _ => .cloudError) = (Except.ok (), 0) := rfl

/-- C3 (amended): in the managed-identity (ACI) variant, a
principal-not-found error on every retry raises the terminal error
"Failed to create contributor role assignment" with no assignment
created, and fewer errors followed by success create the assignment
exactly once; in the Azure service-principal variant, fewer errors
followed by success also create it exactly once (but exhaustion is
silent, per the counterexample). -/
theorem identity_retry_behavior (attF attS : Nat → Aci.MsiRoleAttempt)
    (attA : Nat → Azure.RoleAttempt) (k kA : Nat)
    (hF : ∀ j, j < RETRIES → attF j = .principalNotFound)
    (hk : k < RETRIES) (hS : ∀ j, j < k → attS j = .principalNotFound)
    (hSk : attS k = .created)
    (hkA : kA < RETRIES) (hA : ∀ j, j < kA → attA j = .cloudError)
    (hAk : attA kA = .created) :
    Aci.assign_role attF =
      (Except.error "Failed to create contributor role assignment", 0) ∧
    Aci.assign_role attS = (Except.ok (), 1) ∧
    Azure.role_retry attA = (Except.ok (), 1) := by
  refine ⟨?_, ?_, ?_⟩
  · exact assign_role_from_all_pnf attF RETRIES 0 (fun j hj => by simpa using hF j hj)
  · exact assign_role_from_success attS RETRIES k 0 hk
      (fun j hj => by simpa using hS j hj) (by simpa using hSk)
  · exact role_retry_from_success attA RETRIES kA 0 hkA
      (fun j hj => by simpa using hA j hj) (by simpa using hAk)

/-- C3 witness: the retry theorem applied to concrete attempt traces. -/
theorem identity_retry_behavior_witness :
    Aci.assign_role c3attF =
      (Except.error "Failed to create contributor role assignment", 0) ∧
    Aci.assign_role c3attS = (Except.ok (), 1) ∧
    Azure.role_retry c3attA = (Except.ok (), 1) :=
  identity_retry_behavior c3attF c3attS c3attA 3 2 (by decide) (by decide)
    (by decide) (by decide) (by decide) (by decide) (by decide)

/-- C4: when the credentials file already exists, the stored client secret
is reused as the password and no new password is generated; when
additionally the application already exists, the credentials file is not
rewritten and no application is created. -/
theorem sp_credentials_reuse (env : Azure.SpEnv) (h : env.auth_file_exists = true) :
    (Azure.configure_service_principal env).password = env.stored_client_secret ∧
    (Azure.configure_service_principal env).generated_new_password = false ∧
    (env.app_exists = true →
      (Azure.configure_service_principal env).auth_file_written = false ∧
      (Azure.configure_service_principal env).app_created = false) := by
  refine ⟨?_, ?_, fun happ => ⟨?_, ?_⟩⟩ <;>
    simp_all [Azure.configure_service_principal]

/-- C4 witness: the reuse theorem at a concrete environment with the file
and the application both present. -/
theorem sp_credentials_reuse_witness :
    (Azure.configure_service_principal c4env).password = c4env.stored_client_secret ∧
    (Azure.configure_service_principal c4env).generated_new_password = false ∧
    (c4env.app_exists = true →
      (Azure.configure_service_principal c4env).auth_file_written = false ∧
      (Azure.configure_service_principal c4env).app_created = false) :=
  sp_credentials_reuse c4env rfl

/-- C5: when both the head and the worker template already specify network
interfaces, the network stage returns the configuration unchanged and
performs no network API calls at all. -/
theorem network_early_exit (env : Azure.NetEnv) (cfg : Obj) (v1 v2 : JVal)
    (h1 : Azure.node_nic cfg "head_node" = .ok v1)
    (h2 : Azure.node_nic cfg "worker_nodes" = .ok v2)
    (ht1 : pyTruthy v1 = true) (ht2 : pyTruthy v2 = true) :
    Azure.configure_network env cfg = (.ok cfg, []) := by
  simp [Azure.configure_network, h1, h2, ht1, ht2]

/-- C5 witness: the early-exit theorem at a concrete configuration with
interfaces on both templates. -/
theorem network_early_exit_witness :
    Azure.configure_network c5env c5cfg = (.ok c5cfg, []) :=
  network_early_exit c5env c5cfg (.arr [.s "nic-head"]) (.arr [.s "nic-worker"])
    rfl rfl rfl rfl

/-- C10: after the public-key injection of the ACI key-pair stage, the
head and worker templates both have their entire `os_profile` replaced
by fresh shallow copies of the module-level default `os_profile`
(discarding every caller-supplied `os_profile` field: the result is
independent of the caller dicts `cH`/`cW`), both copies share the module
default's nested `linux_configuration`, and the `ssh` dict reachable
from the module-level `DEFAULT_NODE_CONFIG` itself now carries the
injected public keys — the module default has been mutated in place. -/
theorem aci_key_pair_os_profile_aliasing (cH cW : AciHeap.HDict) (pk u : String) :
    dget? ((AciHeap.run cH cW pk u).read AciHeap.headAddr) "os_profile"
      = some (.ref AciHeap.osCopyHeadAddr) ∧
    (AciHeap.run cH cW pk u).read AciHeap.osCopyHeadAddr =
      [("admin_username", .s "ubuntu"),
       ("computer_name", .s Aci.TAG_RAY_NODE_NAME),
       ("linux_configuration", .ref AciHeap.lcAddr)] ∧
    dget? ((AciHeap.run cH cW pk u).read AciHeap.workerAddr) "os_profile"
      = some (.ref AciHeap.osCopyWorkerAddr) ∧
    (AciHeap.run cH cW pk u).read AciHeap.osCopyWorkerAddr =
      (AciHeap.run cH cW pk u).read AciHeap.osCopyHeadAddr ∧
    dget? ((AciHeap.run cH cW pk u).read AciHeap.defaultNodeConfigAddr) "os_profile"
      = some (.ref AciHeap.osAddr) ∧
    dget? ((AciHeap.run cH cW pk u).read AciHeap.osAddr) "linux_configuration"
      = some (.ref AciHeap.lcAddr) ∧
    dget? ((AciHeap.run cH cW pk u).read AciHeap.lcAddr) "ssh"
      = some (.ref AciHeap.sshAddr) ∧
    dget? ((AciHeap.run cH cW pk u).read AciHeap.sshAddr) "public_keys"
      = some (.arr [.ref AciHeap.pkEntryAddr]) ∧
    (AciHeap.run cH cW pk u).read AciHeap.pkEntryAddr =
      [("key_data", .s pk), ("path", .s ("/home/" ++ u ++ "/.ssh/authorized_keys"))] := by
  have h1 : AciHeap.run cH cW pk u =
      AciHeap.inject_step
        (AciHeap.inject_step (AciHeap.stage0 cH cW pk u) AciHeap.cfgAddr "head_node"
          AciHeap.injectedKeys)
        AciHeap.cfgAddr "worker_nodes" AciHeap.injectedKeys := rfl
  have h2 : AciHeap.inject_step (AciHeap.stage0 cH cW pk u) AciHeap.cfgAddr "head_node"
      AciHeap.injectedKeys = AciHeap.stage1 cH cW pk u := rfl
  have h3 : AciHeap.inject_step (AciHeap.stage1 cH cW pk u) AciHeap.cfgAddr "worker_nodes"
      AciHeap.injectedKeys = AciHeap.stage2 cH cW pk u := rfl
  rw [h1, h2, h3]
  exact ⟨rfl, rfl, rfl, rfl, rfl, rfl, rfl, rfl, rfl⟩

/-- If every available listing attempt raises the authentication error,
the listing loop exhausts silently with an empty result, having made one
listing call per attempt. -/
theorem list_vnets_from_all_auth (env : Azure.NetEnv) :
    ∀ fuel i, (∀ j, j < fuel → env.list_outcome (i + j) = .authError) →
      Azure.list_vnets_from env i fuel = ([], List.replicate fuel .listVnets) := by
  intro fuel
  induction fuel with
  | zero => intro i _; rfl
  | succ n ih =>
      intro i h
      have h0 : env.list_outcome i = .authError := by
        have := h 0 (Nat.succ_pos n); simpa using this
      have hrec := ih (i + 1) (fun j hj => by
        rw [show i + 1 + j = i + (j + 1) by omega]
        exact h (j + 1) (by omega))
      simp [Azure.list_vnets_from, h0, hrec, List.replicate_succ]

/-- The listing retry loop only makes listing calls. -/
theorem list_vnets_from_calls (env : Azure.NetEnv) :
    ∀ fuel i c, c ∈ (Azure.list_vnets_from env i fuel).2 → c = Azure.NetCall.listVnets := by
  intro fuel
  induction fuel with
  | zero => intro i c hc; simp [Azure.list_vnets_from] at hc
  | succ n ih =>
      intro i c hc
      cases ho : env.list_outcome i with
      | ok vs =>
          simp [Azure.list_vnets_from, ho] at hc
          exact hc
      | authError =>
          simp [Azure.list_vnets_from, ho] at hc
          rcases hc with hc | hc
          · exact hc
          · exact ih (i + 1) c hc


/-- C6: with the authentication error on every listing attempt, the
listing retry loop ends silently with an empty result (no error is
raised); in any run of the network stage the virtual network is created
only if the listing result was empty; and in this all-errors scenario a
configuration that reaches the listing falls through to creating the
virtual network. -/
theorem network_auth_retry_fallthrough (env : Azure.NetEnv) (cfg : Obj)
    (hall : ∀ i, i < RETRIES → env.list_outcome i = .authError) :
    Azure.list_vnets env = ([], List.replicate RETRIES .listVnets) ∧
    (∀ (env2 : Azure.NetEnv) (cfg2 : Obj),
      Azure.NetCall.createVnet ∈ (Azure.configure_network env2 cfg2).2 →
      (Azure.list_vnets env2).1 = []) ∧
    (∀ v1 v2, Azure.node_nic cfg "head_node" = .ok v1 →
      Azure.node_nic cfg "worker_nodes" = .ok v2 →
      (pyTruthy v1 && pyTruthy v2) = false →
      ∀ p lv rv av, getItem cfg "provider" = .ok p →
        getItem (asObj p) "location" = .ok lv →
        getItem (asObj p) "resource_group" = .ok rv →
        getItem (asObj p) "auth_path" = .ok av →
        Azure.NetCall.createVnet ∈ (Azure.configure_network env cfg).2) := by
  have hlv : Azure.list_vnets env = ([], List.replicate RETRIES .listVnets) :=
    list_vnets_from_all_auth env RETRIES 0 (fun j hj => by simpa using hall j hj)
  refine ⟨hlv, ?_, ?_⟩
  · intro env2 cfg2 hmem
    by_cases he : (Azure.list_vnets env2).1 = []
    · exact he
    · exfalso
      have hif : (if (Azure.list_vnets env2).1.isEmpty
          then [Azure.NetCall.createVnet] else []) = [] := by
        cases hc : (Azure.list_vnets env2).1 with
        | nil => exact absurd hc he
        | cons a as => simp [hc]
      simp only [Azure.configure_network] at hmem
      rw [hif] at hmem
      repeat' split at hmem
      all_goals simp [List.mem_append] at hmem
      all_goals exact absurd (list_vnets_from_calls env2 RETRIES 0 _ hmem) (by decide)
  · intro v1 v2 h1 h2 hne p lv rv av hp hl hr ha
    simp only [Azure.configure_network, h1, h2, hne, hp, hl, hr, ha]
    split
    · simp_all
    · split
      · simp [hlv, List.mem_append]
      · simp [hlv, List.mem_append]

/-- C6 witness: the fall-through theorem at a concrete all-errors
environment and a configuration without network interfaces. -/
theorem network_auth_retry_fallthrough_witness :
    Azure.list_vnets c6env = ([], List.replicate RETRIES .listVnets) ∧
    Azure.NetCall.createVnet ∈ (Azure.configure_network c6env c6cfg).2 := by
  obtain ⟨hA, _, hC⟩ := network_auth_retry_fallthrough c6env c6cfg (fun i _ => rfl)
  exact ⟨hA, hC (.arr []) (.arr []) rfl rfl rfl
    (.obj [("location", .s "westus"), ("resource_group", .s "rg1"),
      ("auth_path", .s "auth.json")])
    (.s "westus") (.s "rg1") (.s "auth.json") rfl rfl rfl rfl⟩

/-- C9: the NSG parameters of the service-principal network stage read
the location from the TOP-LEVEL `config["location"]` key; when the
location is stored only under `provider` (as the data model prescribes)
and the stage does not take its early exit, it fails with the
missing-key error and the NSG create-or-update call is never made. -/
theorem network_nsg_location_bug (env : Azure.NetEnv) (cfg : Obj) (v1 v2 p lv rv av : JVal)
    (h1 : Azure.node_nic cfg "head_node" = .ok v1)
    (h2 : Azure.node_nic cfg "worker_nodes" = .ok v2)
    (hne : (pyTruthy v1 && pyTruthy v2) = false)
    (hp : getItem cfg "provider" = .ok p)
    (hl : getItem (asObj p) "location" = .ok lv)
    (hr : getItem (asObj p) "resource_group" = .ok rv)
    (ha : getItem (asObj p) "auth_path" = .ok av)
    (htop : dget? cfg "location" = Option.none) :
    (Azure.configure_network env cfg).1 = .error "KeyError: location" ∧
    Azure.NetCall.createNsg ∉ (Azure.configure_network env cfg).2 := by
  have hloc : getItem (dset cfg "provider"
        (.obj (dset (asObj p) "subnet_id" (.s env.subnet_id)))) "location"
      = .error "KeyError: location" := by
    simp only [getItem, dget?_dset]
    rw [if_neg (by decide : ¬("provider" = "location")), htop]
    rfl
  constructor
  · simp only [Azure.configure_network, h1, h2, hne, hp, hl, hr, ha]
    split
    · simp_all
    · simp [hloc]
  · intro hmem
    simp only [Azure.configure_network, h1, h2, hne, hp, hl, hr, ha] at hmem
    split at hmem
    · simp_all
    · simp [hloc, List.mem_append] at hmem
      exact absurd (list_vnets_from_calls env RETRIES 0 _ hmem) (by decide)

/-- C9 witness: the missing-key theorem at a concrete configuration whose
location is stored only under `provider`. -/
theorem network_nsg_location_bug_witness :
    (Azure.configure_network c6env c6cfg).1 = .error "KeyError: location" ∧
    Azure.NetCall.createNsg ∉ (Azure.configure_network c6env c6cfg).2 :=
  network_nsg_location_bug c6env c6cfg (.arr []) (.arr [])
    (.obj [("location", .s "westus"), ("resource_group", .s "rg1"),
      ("auth_path", .s "auth.json")])
    (.s "westus") (.s "rg1") (.s "auth.json") rfl rfl rfl rfl rfl rfl rfl rfl

/-- C8 counterexample: in the ACI variant a configuration whose manually
specified private key EXISTS on disk does not exit early: the stage
additionally asserts SSH public-key configuration on both node
templates, and fails hard when it is absent — here `public_keys` is
`None` (the module default), so the stage raises `AssertionError`
despite the key file existing, contradicting the claim that an existing
file always leads to an early exit. -/
theorem aci_manual_key_extra_assert :
    c8env.path_exists "/k.pem" = true ∧
    Aci.configure_key_pair c8env c8cfg = .error "AssertionError" := ⟨rfl, rfl⟩

/-- C8 (amended): with a manually specified private key, both variants
assert that the key file exists and fail hard otherwise; the Azure
variant then exits early with the configuration unchanged and no key
generated, while the ACI variant exits early only after additionally
asserting that both node templates already carry SSH public-key
configuration (failing hard otherwise). -/
theorem key_pair_manual_key_behavior :
    (∀ (env : KeyPairEnv) (cfg : Obj) (auth : JVal),
      getItem cfg "auth" = .ok auth →
      pyTruthy (dgetD (asObj auth) "ssh_private_key" JVal.none) = true →
      (env.path_exists (asStr (dgetD (asObj auth) "ssh_private_key" JVal.none)) = true →
        Azure.configure_key_pair env cfg = .ok (cfg, false)) ∧
      (env.path_exists (asStr (dgetD (asObj auth) "ssh_private_key" JVal.none)) = false →
        Azure.configure_key_pair env cfg = .error "AssertionError")) ∧
    (∀ (env : KeyPairEnv) (cfg : Obj) (auth : JVal),
      getItem cfg "auth" = .ok auth →
      pyTruthy (dgetD (asObj auth) "ssh_private_key" JVal.none) = true →
      (env.path_exists (asStr (dgetD (asObj auth) "ssh_private_key" JVal.none)) = false →
        Aci.configure_key_pair env cfg = .error "AssertionError") ∧
      (env.path_exists (asStr (dgetD (asObj auth) "ssh_private_key" JVal.none)) = true →
        Aci.assert_public_key_config cfg "head_node" = .ok () →
        Aci.assert_public_key_config cfg "worker_nodes" = .ok () →
        Aci.configure_key_pair env cfg = .ok (cfg, false))) := by
  constructor
  · intro env cfg auth hauth htr
    constructor
    · intro hex
      simp [Azure.configure_key_pair, hauth, htr, hex]
    · intro hex
      simp [Azure.configure_key_pair, hauth, htr, hex]
  · intro env cfg auth hauth htr
    constructor
    · intro hex
      simp [Aci.configure_key_pair, hauth, htr, hex]
    · intro hex hh hw
      simp [Aci.configure_key_pair, hauth, htr, hex, hh, hw]

/-- C8 witness: the amended theorem at concrete configurations — an
existing key file leads to an unchanged early exit in both variants,
and a missing key file fails the assertion. -/
theorem key_pair_manual_key_behavior_witness :
    Azure.configure_key_pair c8wenv c8wcfgA = .ok (c8wcfgA, false) ∧
    Azure.configure_key_pair c8wenv c8wcfgB = .error "AssertionError" ∧
    Aci.configure_key_pair c8wenv c8wcfgAci = .ok (c8wcfgAci, false) := by
  refine ⟨?_, ?_, ?_⟩
  · exact (key_pair_manual_key_behavior.1 c8wenv c8wcfgA
      (.obj [("ssh_private_key", .s "/a.pem")]) rfl rfl).1 rfl
  · exact (key_pair_manual_key_behavior.1 c8wenv c8wcfgB
      (.obj [("ssh_private_key", .s "/b.pem")]) rfl rfl).2 rfl
  · exact (key_pair_manual_key_behavior.2 c8wenv c8wcfgAci
      (.obj [("ssh_private_key", .s "/a.pem")]) rfl rfl).2 rfl rfl rfl
